import Mathlib

/-!
Verification of the agentic plan-execution engine: a shallow embedding of the
planner (`src/agent/planner.py`), the LLM-planner fallback
(`src/agent/planner_llm.py`), the controller and its tool registry
(`src/agent/controller.py`), and the tool adapters (`src/tools/*.py`).

Python dictionaries are modelled as insertion-ordered association lists,
Python values as the inductive `Value`, raised exceptions as `Except String`,
and external effects (network, SMTP, OpenAI, filesystem, HTML and PDF
parsing libraries) as oracle parameters, so that every definition is
executable and every property is settled against the translated code.
-/

/-- Model of a Python runtime value as it occurs in plans, args and context. -/
inductive Value where
  | null
  | bool (b : Bool)
  | int (n : Int)
  | str (s : String)
  | list (xs : List Value)
  | dict (kvs : List (String × Value))

mutual

/-- Model of Python `repr` on `Value` (string escaping elided). -/
def pyRepr : Value → String
  | .null => "None"
  | .bool true => "True"
  | .bool false => "False"
  | .int n => toString n
  | .str s => "'" ++ s ++ "'"
  | .list xs => "[" ++ pyReprList xs ++ "]"
  | .dict kvs => "\x7b" ++ pyReprDict kvs ++ "\x7d"

/-- `repr` of list elements, comma separated. -/
def pyReprList : List Value → String
  | [] => ""
  | [x] => pyRepr x
  | x :: xs => pyRepr x ++ ", " ++ pyReprList xs

/-- `repr` of dict items, comma separated. -/
def pyReprDict : List (String × Value) → String
  | [] => ""
  | [(k, v)] => "'" ++ k ++ "': " ++ pyRepr v
  | (k, v) :: rest => "'" ++ k ++ "': " ++ pyRepr v ++ ", " ++ pyReprDict rest

end

/-- Model of Python `str()` as used inside f-strings. -/
def pyStr : Value → String
  | .null => "None"
  | .bool true => "True"
  | .bool false => "False"
  | .int n => toString n
  | .str s => s
  | v => pyRepr v

/-- Python truthiness of a value (`if v:`). -/
def truthy : Value → Bool
  | .null => false
  | .bool b => b
  | .int n => n != 0
  | .str s => s != ""
  | .list xs => !xs.isEmpty
  | .dict kvs => !kvs.isEmpty

/-- A Python `dict` with string keys, as an insertion-ordered association list. -/
def PyDict : Type := List (String × Value)

/-- The execution context is such a dictionary. -/
def Ctx : Type := List (String × Value)

/-- Model of `d.get(k)`: `None` when the key is absent. -/
def pyGet (d : List (String × Value)) (k : String) : Value :=
  (List.lookup k d).getD Value.null

/-- Model of `d.get(k, default)`. -/
def pyGetD (d : List (String × Value)) (k : String) (v : Value) : Value :=
  (List.lookup k d).getD v

/-- Model of `d[k] = v`: rebinds an existing key in place, else appends,
matching CPython's insertion-order preservation. -/
def ctxSet : List (String × Value) → String → Value → List (String × Value)
  | [], k, v => [(k, v)]
  | (k', v') :: rest, k, v =>
    if k' == k then (k, v) :: rest else (k', v') :: ctxSet rest k v

/-- Model of `x or y` on values (left operand when truthy). -/
def pyOr (a b : Value) : Value :=
  if truthy a then a else b

/-- Does `pat` occur at the head of `cs`? -/
def leadsList : List Char → List Char → Bool
  | [], _ => true
  | _ :: _, [] => false
  | p :: ps, c :: cs => p == c && leadsList ps cs

/-- Does `pat` occur anywhere in `cs`? -/
def subIn (pat : List Char) : List Char → Bool
  | [] => leadsList pat []
  | c :: t => leadsList pat (c :: t) || subIn pat t

/-- Model of Python's substring test `needle in hay`. -/
def pyIn (needle hay : String) : Bool :=
  subIn needle.data hay.data

/-- Model of `s.lower()`. -/
def lowerStr (s : String) : String :=
  String.mk (s.data.map Char.toLower)

/-- Model of `s.strip()` on a character list. -/
def stripList (cs : List Char) : List Char :=
  ((cs.dropWhile Char.isWhitespace).reverse.dropWhile Char.isWhitespace).reverse

/-- Model of `s.strip()`. -/
def pyStrip (s : String) : String :=
  String.mk (stripList s.data)

/-- Parse a nonempty digit string. -/
def digitsToNat? (cs : List Char) : Option Nat :=
  if cs.isEmpty then none
  else cs.foldl (fun acc c => match acc with
    | none => none
    | some n => if c.isDigit then some (n * 10 + (c.toNat - '0'.toNat)) else none)
    (some 0)

/-- Model of Python `int(v)`: exact for ints and bools, sign-and-digits
parsing for strings, raising `TypeError`/`ValueError` otherwise. -/
def pyToInt (v : Value) : Except String Int :=
  match v with
  | .int n => .ok n
  | .bool b => .ok (if b then 1 else 0)
  | .str s =>
    match stripList s.data with
    | '-' :: ds => match digitsToNat? ds with
      | some n => .ok (-(n : Int))
      | none => .error ("invalid literal for int(): " ++ s)
    | '+' :: ds => match digitsToNat? ds with
      | some n => .ok (n : Int)
      | none => .error ("invalid literal for int(): " ++ s)
    | ds => match digitsToNat? ds with
      | some n => .ok (n : Int)
      | none => .error ("invalid literal for int(): " ++ s)
  | _ => .error "int() argument must be a string or a number"

/-- Model of the Python slice `l[:n]`, including negative bounds. -/
def pySliceTo {α : Type} (l : List α) (n : Int) : List α :=
  if 0 ≤ n then l.take n.toNat else l.take ((l.length : Int) + n).toNat

/-- Model of the string slice `s[:n]` for `0 ≤ n`. -/
def pyTakeStr (s : String) (n : Nat) : String :=
  String.mk (s.data.take n)

/-- Model of `range(a, b)` as a list of integers. -/
def intRange (a b : Int) : List Int :=
  (List.range (b - a).toNat).map (fun k => a + (k : Int))

/-- One step of a plan: `{"id": …, "tool": …, "args": …}`. -/
structure Step where
  id : Nat
  tool : String
  args : PyDict

/-- A plan as the controller consumes it: `input` and `steps` model
`plan.get("input")` / `plan.get("steps", [])`, with `none` for an absent key. -/
structure Plan where
  input : Option Value
  steps : Option (List Step)

/-- Case-insensitive `leadsList` (regex `re.IGNORECASE` on a literal). -/
def ciLeads : List Char → List Char → Bool
  | [], _ => true
  | _ :: _, [] => false
  | p :: ps, c :: cs => p.toLower == c.toLower && ciLeads ps cs

/-- Model of `re.search(lit ++ "(.+)", cmd, re.IGNORECASE)`: find the leftmost
occurrence of the literal `pat` followed by at least one non-newline character
and return the greedy capture of `(.+)`. -/
def reFindTail (pat : List Char) : List Char → Option (List Char)
  | [] => none
  | c :: rest =>
    if ciLeads pat (c :: rest) then
      let g := ((c :: rest).drop pat.length).takeWhile (fun ch => ch != '\n')
      if g.isEmpty then reFindTail pat rest else some g
    else reFindTail pat rest

namespace Planner

/-- `Planner._extract_search_query`: try the patterns `find me (.+)`,
`search for (.+)`, `look for (.+)`, `find (.+)` case-insensitively against the
original command; fall back to the whole command. -/
def _extract_search_query (command : String) : String :=
  match reFindTail "find me ".data command.data with
  | some g => String.mk g
  | none => match reFindTail "search for ".data command.data with
    | some g => String.mk g
    | none => match reFindTail "look for ".data command.data with
      | some g => String.mk g
      | none => match reFindTail "find ".data command.data with
        | some g => String.mk g
        | none => command

/-- Truthiness of the optional `target_email` argument. -/
def targetTruthy : Option String → Bool
  | none => false
  | some s => s != ""

/-- The search-intent test: `any(k in cmd for k in ["find", "search",
"look for", "top", "list"])`. -/
def wantsSearch (cmd : String) : Bool :=
  ["find", "search", "look for", "top", "list"].any (fun k => pyIn k cmd)

/-- The scrape test: scrape/detail/summary/compare keywords, or the literal
substrings `internship` or `course`. -/
def wantsScrape (cmd : String) : Bool :=
  ["scrape", "details", "summarize", "summary", "compare"].any (fun k => pyIn k cmd)
    || pyIn "internship" cmd || pyIn "course" cmd

/-- The summarization test. -/
def wantsSummarize (cmd : String) : Bool :=
  ["summarize", "summary", "bullet", "compare", "comparison"].any (fun k => pyIn k cmd)

/-- The email test: a truthy target address, or `email`/`send` in the
command. -/
def wantsEmail (cmd : String) (target_email : Option String) : Bool :=
  targetTruthy target_email || pyIn "email" cmd || pyIn "send" cmd

/-- `Planner.plan`: the rule-based planner of `src/agent/planner.py`. -/
def plan (command : String) (target_email : Option String) : Plan :=
  let cmd := lowerStr command
  let steps : List Step := []
  let sid : Nat := 1
  let (steps, sid) :=
    if wantsSearch cmd then
      (steps ++ [⟨sid, "search",
        [("query", .str (_extract_search_query command)), ("limit", .int 5)]⟩], sid + 1)
    else (steps, sid)
  let (steps, sid) :=
    if wantsScrape cmd then
      (steps ++ [⟨sid, "scrape", [("top_k", .int 3)]⟩], sid + 1)
    else (steps, sid)
  let (steps, sid) :=
    if wantsSummarize cmd then
      (steps ++ [⟨sid, "summarize",
        [("mode", .str "bullet"), ("max_sentences", .int 8)]⟩], sid + 1)
    else (steps, sid)
  let (steps, sid) :=
    if wantsEmail cmd target_email then
      (steps ++ [⟨sid, "email",
        [("to", .str (target_email.getD "")),
         ("subject", .str ("Automation result for: " ++ command))]⟩], sid + 1)
    else (steps, sid)
  let steps := steps ++ [⟨sid, "logger",
    [("message", .str ("Completed task: " ++ command))]⟩]
  { input := some (.str command), steps := some steps }

end Planner

namespace Controller

/-- `Controller.__init__`'s tool registry: tool name → module path, for the
enhanced (`use_enhanced=True`) and basic profiles. -/
def tool_map (use_enhanced : Bool) : List (String × String) :=
  if use_enhanced then
    [("search", "src.tools.search_tool_enhanced"),
     ("scrape", "src.tools.scraper_tool_enhanced"),
     ("summarize", "src.tools.summarizer_tool"),
     ("summarise", "src.tools.summarizer_tool"),
     ("email", "src.tools.email_tool"),
     ("logger", "src.tools.logger_tool"),
     ("resume_parser", "src.tools.resume_parser_tool"),
     ("resume_analyzer", "src.tools.resume_analyzer_tool"),
     ("job_matcher", "src.tools.job_matcher_tool")]
  else
    [("search", "src.tools.search_tool"),
     ("scrape", "src.tools.scraper_tool"),
     ("summarize", "src.tools.summarizer_tool"),
     ("summarise", "src.tools.summarizer_tool"),
     ("email", "src.tools.email_tool"),
     ("logger", "src.tools.logger_tool"),
     ("resume_parser", "src.tools.resume_parser_tool"),
     ("resume_analyzer", "src.tools.resume_analyzer_tool"),
     ("job_matcher", "src.tools.job_matcher_tool")]

/-- The registry-resolution part of `Controller._invoke_tool`:
`module_path = self.tool_map.get(tool_name); if not module_path: raise
ValueError(f"Unknown tool: {tool_name}")`. -/
def resolveTool (use_enhanced : Bool) (tool_name : String) : Except String String :=
  match List.lookup tool_name (tool_map use_enhanced) with
  | some p => if p == "" then .error ("Unknown tool: " ++ tool_name) else .ok p
  | none => .error ("Unknown tool: " ++ tool_name)

/-- Behaviour of one tool invocation (`Controller._invoke_tool`), abstracted
over the adapters: given the count of invocations already made in this
`execute_plan` call (so that an external adapter may behave differently on a
retry), the tool name, the step args and the live context, it either raises
(`.error`, covering unknown tools and adapter failures) or returns the
adapter's `(logs, output)` pair, `none` modelling a `None` output. -/
def Invoke : Type :=
  Nat → String → PyDict → Ctx → Except String (List String × Option Value)

/-- The context key `f"step_{step.get('id')}_output"`. -/
def stepKey (s : Step) : String :=
  "step_" ++ toString s.id ++ "_output"

/-- The log line `f"Starting step {step.get('id')} -> {tool_name}"`. -/
def startLine (s : Step) : String :=
  "Starting step " ++ toString s.id ++ " -> " ++ s.tool

/-- The body of the `for step in steps` loop of `Controller.execute_plan`:
first attempt, on exception one retry with the same args and context, log
lines exactly as in the source. Returns the lines appended for this step, the
updated context and the updated invocation count. -/
def execStep (invoke : Invoke) (n : Nat) (ctx : Ctx) (s : Step) :
    List String × Ctx × Nat :=
  match invoke n s.tool s.args ctx with
  | .ok (tool_logs, output) =>
    let ctx' := match output with
      | some v => ctxSet ctx (stepKey s) v
      | none => ctx
    (startLine s :: tool_logs ++
      ["Finished step " ++ toString s.id ++ " -> " ++ s.tool], ctx', n + 1)
  | .error e =>
    let err := "Error in step " ++ toString s.id ++ " (" ++ s.tool ++ "): " ++ e
    let retry := "Retrying step " ++ toString s.id ++ " -> " ++ s.tool
    match invoke (n + 1) s.tool s.args ctx with
    | .ok (tool_logs, output) =>
      let ctx' := match output with
        | some v => ctxSet ctx (stepKey s) v
        | none => ctx
      (startLine s :: err :: retry :: tool_logs ++
        ["Finished retry step " ++ toString s.id ++ " -> " ++ s.tool], ctx', n + 2)
    | .error e2 =>
      (startLine s :: err :: retry ::
        ["Failed retry for step " ++ toString s.id ++ ": " ++ e2], ctx, n + 2)

/-- The whole loop of `Controller.execute_plan`, threading log, context and
invocation count. -/
def execSteps (invoke : Invoke) (n : Nat) (ctx : Ctx) : List Step → List String × Ctx × Nat
  | [] => ([], ctx, n)
  | s :: rest =>
    let r := execStep invoke n ctx s
    let r' := execSteps invoke r.2.2 r.2.1 rest
    (r.1 ++ r'.1, r'.2.1, r'.2.2)

/-- The initial context `{"plan_input": plan.get("input")}`. -/
def initCtx (plan : Plan) : Ctx :=
  [("plan_input", plan.input.getD Value.null)]

/-- `Controller.execute_plan`: returns the accumulated log list. -/
def execute_plan (invoke : Invoke) (plan : Plan) : List String :=
  (execSteps invoke 0 (initCtx plan) (plan.steps.getD [])).1

/-- The output a step's (at most two) invocations effectively produce: the
first attempt's output, else the retry's output, else `none` when both raise. -/
def stepOutcome (invoke : Invoke) (n : Nat) (ctx : Ctx) (s : Step) : Option Value :=
  match invoke n s.tool s.args ctx with
  | .ok (_, output) => output
  | .error _ =>
    match invoke (n + 1) s.tool s.args ctx with
    | .ok (_, output) => output
    | .error _ => none

/-- How many invocations a step consumes: one on first-attempt success, two
otherwise. -/
def stepAttempts (invoke : Invoke) (n : Nat) (ctx : Ctx) (s : Step) : Nat :=
  match invoke n s.tool s.args ctx with
  | .ok _ => 1
  | .error _ => 2

/-- The context keys written while executing a list of steps, in order: the
key `step_<id>_output` of exactly those steps whose effective invocation
returned a non-null output. -/
def writtenKeys (invoke : Invoke) (n : Nat) (ctx : Ctx) : List Step → List String
  | [] => []
  | s :: rest =>
    match stepOutcome invoke n ctx s with
    | some v =>
      stepKey s ::
        writtenKeys invoke (n + stepAttempts invoke n ctx s) (ctxSet ctx (stepKey s) v) rest
    | none => writtenKeys invoke (n + stepAttempts invoke n ctx s) ctx rest

/-- The context as passed to the `k`-th step (0-based) of a plan: the initial
context as mutated by the first `k` steps. -/
def ctxBefore (invoke : Invoke) (plan : Plan) (k : Nat) : Ctx :=
  (execSteps invoke 0 (initCtx plan) ((plan.steps.getD []).take k)).2.1

end Controller

/-- Truthiness of an `os.getenv` result (`None` or the string's own truth). -/
def envTruthy : Option String → Bool
  | none => false
  | some s => s != ""

namespace LLMPlanner

/-- A plan step as a JSON value: `{"id": …, "tool": …, "args": …}`. -/
def stepToValue (s : Step) : Value :=
  .dict [("id", .int s.id), ("tool", .str s.tool), ("args", .dict s.args)]

/-- The dict the rule-based planner returns, as a JSON value. -/
def planToValue (p : Plan) : Value :=
  .dict [("input", p.input.getD .null),
         ("steps", .list ((p.steps.getD []).map stepToValue))]

/-- Is `step.get("tool")` equal to the string `"email"`? -/
def isEmailName : Option Value → Bool
  | some (.str t) => t == "email"
  | _ => false

/-- Model of `any(s.get("tool") == "email" for s in plan["steps"])`, which
short-circuits and raises if it reaches a non-dict element. -/
def hasEmailStep : List Value → Except String Bool
  | [] => .ok false
  | s :: rest =>
    match s with
    | .dict kvs =>
      if isEmailName (List.lookup "tool" kvs) then .ok true else hasEmailStep rest
    | _ => .error "AttributeError: step has no attribute get"

/-- Model of `"to" in step.get("args", {})` over the possible shapes of
`args` (dict-key, list-element or substring membership; raising otherwise). -/
def toInArgs : Value → Except String Bool
  | .dict akvs => .ok (List.lookup "to" akvs).isSome
  | .list xs => .ok (xs.any (fun x => match x with | .str t => t == "to" | _ => false))
  | .str s => .ok (pyIn "to" s)
  | _ => .error "TypeError: argument of type is not iterable"

/-- The body of the target-email fill loop of `LLMPlanner._plan_with_llm`:
an email step with a present but falsy `to` argument has it replaced by the
target address. -/
def fillStep (target : String) (s : Value) : Except String Value :=
  match s with
  | .dict kvs =>
    if isEmailName (List.lookup "tool" kvs) then do
      let argsV := pyGetD kvs "args" (.dict [])
      let hasTo ← toInArgs argsV
      if hasTo then
        match argsV with
        | .dict akvs =>
          if truthy (pyGet akvs "to") then pure s
          else pure (.dict (ctxSet kvs "args" (.dict (ctxSet akvs "to" (.str target)))))
        | _ => .error "TypeError: args is not subscriptable"
      else pure s
    else pure s
  | _ => .error "AttributeError: step has no attribute get"

/-- The tail of `LLMPlanner._plan_with_llm`'s `try` block, applied to the
already-parsed JSON value: inject `input` when absent, raise
`ValueError("Invalid plan structure")` when `steps` is missing or not a list,
then fill the target address into email steps whose `to` is empty. -/
def attempt (pv : Value) (command : String) (target_email : Option String) :
    Except String Value :=
  match pv with
  | .dict kvs0 =>
    let kvs := if (List.lookup "input" kvs0).isNone
      then ctxSet kvs0 "input" (.str command) else kvs0
    match List.lookup "steps" kvs with
    | some (.list stepVals) =>
      if Planner.targetTruthy target_email then do
        let hasE ← hasEmailStep stepVals
        if hasE then do
          let newSteps ← stepVals.mapM (fillStep (target_email.getD ""))
          pure (.dict (ctxSet kvs "steps" (.list newSteps)))
        else pure (.dict kvs)
      else pure (.dict kvs)
    | _ => .error "Invalid plan structure"
  | _ => .error "TypeError: plan is not a dict"

/-- `LLMPlanner._plan_with_llm`: `parsed` is the outcome of the backend call,
markdown stripping and `json.loads` (external, hence an oracle); any raise
there or in the structural validation falls back to the rule-based planner. -/
def _plan_with_llm (parsed : Except String Value) (command : String)
    (target_email : Option String) : Value :=
  match parsed with
  | .error _ => planToValue (Planner.plan command target_email)
  | .ok pv =>
    match attempt pv command target_email with
    | .ok v => v
    | .error _ => planToValue (Planner.plan command target_email)

/-- `LLMPlanner.plan`: delegate to the generative path only when
`PLANNER_MODE` is `llm` and an `OPENAI_API_KEY` is present. -/
def plan (planner_mode api_key : Option String) (parsed : Except String Value)
    (command : String) (target_email : Option String) : Value :=
  if planner_mode.getD "rule" == "llm" && envTruthy api_key then
    _plan_with_llm parsed command target_email
  else planToValue (Planner.plan command target_email)

end LLMPlanner

/-- The outcome of one adapter `run` call: raised exception, or the
`(logs, output)` pair. -/
def PyResult : Type := Except String (List String × Value)

/-- Model of Python iteration `for x in v` (lists, strings, dict keys). -/
def pyIter : Value → Except String (List Value)
  | .list xs => .ok xs
  | .str s => .ok (s.data.map (fun c => .str (String.mk [c])))
  | .dict kvs => .ok (kvs.map (fun kv => .str kv.1))
  | _ => .error "TypeError: object is not iterable"

/-- Raise unless the value is a `str`. -/
def expectStr : Value → Except String String
  | .str s => .ok s
  | _ => .error "TypeError: expected str instance"

/-- Model of `len(v)` on sized values. -/
def pyLen : Value → Except String Nat
  | .str s => .ok s.data.length
  | .list xs => .ok xs.length
  | .dict kvs => .ok kvs.length
  | _ => .error "TypeError: object has no len()"

/-- Model of the slice `v[:n]` at the value level. -/
def sliceVal (v : Value) (n : Int) : Except String Value :=
  match v with
  | .list xs => .ok (.list (pySliceTo xs n))
  | .str s => .ok (.str (String.mk (pySliceTo s.data n)))
  | _ => .error "TypeError: object is not subscriptable"

/-- Model of `s.replace(c, rep)` for a one-character pattern. -/
def replChar (a : Char) (rep : List Char) : List Char → List Char
  | [] => []
  | c :: t => if c == a then rep ++ replChar a rep t else c :: replChar a rep t

/-- Model of `s.split(sep)` for a one-character separator. -/
def splitChar (sep : Char) : List Char → List (List Char)
  | [] => [[]]
  | c :: t =>
    let r := splitChar sep t
    if c == sep then [] :: r
    else match r with
      | [] => [[c]]
      | h :: rt => (c :: h) :: rt

/-- Model of `len(s.split())`: the number of maximal non-whitespace runs. -/
def wordCount (s : String) : Nat :=
  (s.data.foldl (fun (acc : Nat × Bool) c =>
    if c.isWhitespace then (acc.1, false)
    else if acc.2 then acc else (acc.1 + 1, true)) (0, false)).1

/-- Model of `re.split(r'(?<=[.!?])\s+', s)`: cut after a sentence-ending
punctuation mark followed by whitespace, consuming the whitespace run. -/
def splitSentGo : List Char → List Char → List String
  | [], acc => [String.mk acc.reverse]
  | c :: rest, acc =>
    if c.isWhitespace &&
        (match acc with | p :: _ => p == '.' || p == '!' || p == '?' | [] => false)
    then String.mk acc.reverse :: splitSentGo (rest.dropWhile Char.isWhitespace) []
    else splitSentGo rest (c :: acc)
termination_by cs _ => cs.length
decreasing_by
  · have hle : ∀ (l : List Char), (l.dropWhile Char.isWhitespace).length ≤ l.length := by
      intro l
      induction l with
      | nil => simp [List.dropWhile]
      | cons a t ih =>
        rw [List.dropWhile]
        split
        · exact Nat.le_succ_of_le ih
        · simp
    exact Nat.lt_succ_of_le (hle _)
  · simp

/-- Characters admissible inside a matched URL: `[^\s<>]`. -/
def urlChar (c : Char) : Bool :=
  !c.isWhitespace && c != '<' && c != '>'

/-- Model of `re.sub(r'(https?://[^\s<>]+)', '<a href="\1" …>\1</a>', body)`. -/
def linkifyGo : List Char → List Char
  | [] => []
  | c :: rest =>
    if leadsList "https://".data (c :: rest) || leadsList "http://".data (c :: rest) then
      let schemeLen : Nat := if leadsList "https://".data (c :: rest) then 8 else 7
      let tail := ((c :: rest).drop schemeLen).takeWhile urlChar
      if tail.isEmpty then c :: linkifyGo rest
      else
        let url := String.mk ((c :: rest).take schemeLen ++ tail)
        ("<a href=\"" ++ url ++ "\" style=\"color: #0066cc; text-decoration: underline;\">"
          ++ url ++ "</a>").data ++ linkifyGo ((c :: rest).drop (schemeLen + tail.length))
    else c :: linkifyGo rest
termination_by cs => cs.length
decreasing_by
  · simp
  · simp only [List.length_drop, List.length_cons]
    split <;> omega
  · simp

/-- Outcome of a Playwright page fetch (`_scrape_with_playwright`). -/
inductive PwRes where
  | content (html : String)
  | importErr
  | err (msg : String)

/-- Outcome of the OCR pipeline (`_extract_from_pdf_with_ocr`). -/
inductive OcrRes where
  | pages (texts : List String)
  | importErr
  | err (msg : String)

/-- Oracles for every external effect the tool adapters perform: environment
variables, HTTP fetches, HTML/PDF/DOCX parsing libraries, Playwright, OCR,
OpenAI calls, the SMTP client and the filesystem. The adapters' own control
flow and string processing stay in the translated definitions. -/
structure ToolExt where
  env : String → Option String
  fetch : String → Except String (Int × String)
  soupParas : String → List String
  fetchEnh : String → Except String (Int × String)
  soupParasEnh : String → List String
  soupText : String → String
  playwright : String → PwRes
  openaiMod : Bool
  aiSummarize : String → Except String String
  serp : Value → Int → Except String (Int × Value)
  google : Value → Int → Except String (Int × Value)
  smtpSend : String → Option Int → String → String → Option String →
    String → String → String → String → Except String Unit
  pathExists : String → Bool
  pdfPages : String → Except String (List (Option String))
  ocr : String → OcrRes
  docxParas : String → Except String (List String)
  txtRead : String → Except String String
  aiAnalyze : String → Except String Value

namespace SearchTool

/-- One fake search result of `src/tools/search_tool.py` (raising like
`query.replace` when the query is not a string and the loop is entered). -/
def fakeResult (queryV : Value) (i : Int) : Except String Value := do
  let qs ← match queryV with
    | .str s => Except.ok (String.mk (replChar ' ' "-".data s.data))
    | _ => Except.error "AttributeError: object has no attribute replace"
  Except.ok (.dict
    [("title", .str ("Result " ++ toString i ++ " for " ++ pyStr queryV)),
     ("url", .str ("https://example.com/" ++ qs ++ "/" ++ toString i)),
     ("snippet", .str ("This is a short snippet describing " ++ pyStr queryV ++
       " result #" ++ toString i ++ "."))])

/-- `run` of `src/tools/search_tool.py`: fake results for a query. -/
def run (args : PyDict) (ctx : Ctx) : PyResult × Ctx :=
  ((do
    let queryV := pyGetD args "query" (.str "")
    let limit ← pyToInt (pyGetD args "limit" (.int 5))
    let results ← (intRange 1 (limit + 1)).mapM (fakeResult queryV)
    Except.ok (["Search: found " ++ toString results.length ++ " results for '" ++
      pyStr queryV ++ "'"], Value.dict [("results", .list results)])), ctx)

end SearchTool

namespace LoggerTool

/-- `run` of `src/tools/logger_tool.py`. -/
def run (args : PyDict) (ctx : Ctx) : PyResult × Ctx :=
  let message := pyOr (pyGet args "message") (pyOr (pyGet args "msg") (.str ""))
  (.ok (["LOG: " ++ pyStr message], .dict [("logged", message)]), ctx)

end LoggerTool

/-- The context scan shared by both scrapers: the first context value that is
a dict with a truthy `results` entry yields that entry. -/
def findResults : List (String × Value) → Option Value
  | [] => none
  | (_, v) :: rest =>
    match v with
    | .dict d => if truthy (pyGet d "results") then some (pyGet d "results")
        else findResults rest
    | _ => findResults rest

/-- Turn `results[:top_k]` into the sliced element list, raising when the
value cannot be sliced. -/
def sliceResults (results : Value) (top_k : Int) : Except String (List Value) :=
  match results with
  | .list rs => .ok (pySliceTo rs top_k)
  | .str s => .ok ((pySliceTo s.data top_k).map (fun c => Value.str (String.mk [c])))
  | _ => .error "TypeError: object is not subscriptable"

namespace ScraperTool

/-- `_extract_text` of `src/tools/scraper_tool.py`: paragraph texts (from the
HTML-parsing oracle), first twenty, joined by blank lines. -/
def _extract_text (ext : ToolExt) (html : String) : String :=
  String.intercalate "\n\n" ((ext.soupParas html).take 20)

/-- The body of the fetch loop of `run`: log lines and scraped pages
contributed by one URL; a raise inside the loop's `try` is converted into an
`Error fetching` line. -/
def scrapeOne (ext : ToolExt) (u : Value) : List String × List Value :=
  let fetchLog := "Fetching " ++ pyStr u
  match u with
  | .str us =>
    match ext.fetch us with
    | .ok (status, page) =>
      if status == 200 then
        let text := _extract_text ext page
        ([fetchLog, "Scraped " ++ us ++ " (" ++ toString text.length ++ " chars)"],
         [Value.dict [("url", u), ("text", pyOr (.str text) (.str "(no text)"))]])
      else ([fetchLog, "Failed to fetch " ++ pyStr u ++ ": status " ++ toString status], [])
    | .error e => ([fetchLog, "Error fetching " ++ pyStr u ++ ": " ++ e], [])
  | _ => ([fetchLog, "Error fetching " ++ pyStr u ++ ": url must be a string"], [])

/-- `run` of `src/tools/scraper_tool.py`. -/
def run (ext : ToolExt) (args : PyDict) (ctx : Ctx) : PyResult × Ctx :=
  ((do
    let urls ←
      if (List.lookup "url" args).isSome && truthy (pyGet args "url") then
        Except.ok (some [pyGet args "url"])
      else
        match findResults ctx with
        | none => Except.ok none
        | some results => do
          let top_k ← pyToInt (pyGetD args "top_k" (.int 3))
          let rs ← sliceResults results top_k
          let us ← rs.mapM (fun r => match r with
            | .dict d => Except.ok (pyGet d "url")
            | _ => Except.error "AttributeError: object has no attribute get")
          Except.ok (some us)
    match urls with
    | none => Except.ok (["No URLs or search results available to scrape"],
        Value.dict [("pages", .list [])])
    | some us =>
      let scraped := us.map (scrapeOne ext)
      Except.ok (scraped.foldr (fun p acc => p.1 ++ acc) [],
        Value.dict [("pages", .list (scraped.foldr (fun p acc => p.2 ++ acc) []))])), ctx)

end ScraperTool

namespace ScraperToolEnhanced

/-- `_extract_text_bs4` of `src/tools/scraper_tool_enhanced.py`: paragraph
texts when present, else the first fifty nonblank lines of the page's plain
text. -/
def _extract_text_bs4 (ext : ToolExt) (html : String) : String :=
  let paragraphs := ext.soupParasEnh html
  if !paragraphs.isEmpty then String.intercalate "\n\n" (paragraphs.take 20)
  else
    let lines := ((splitChar '\n' (ext.soupText html).data).filter
      (fun l => !(stripList l).isEmpty)).map String.mk
    String.intercalate "\n" (lines.take 50)

/-- `_scrape_with_requests`: fetch with headers, extract, or degrade to an
`(HTTP …)`/`(Error: …)` string. -/
def _scrape_with_requests (ext : ToolExt) (u : Value) : String :=
  match u with
  | .str us =>
    match ext.fetchEnh us with
    | .ok (status, page) =>
      if status == 200 then _extract_text_bs4 ext page
      else "(HTTP " ++ toString status ++ ")"
    | .error e => "(Error: " ++ e ++ ")"
  | _ => "(Error: url must be a string)"

/-- `_scrape_with_playwright`: JS-rendered fetch, degrading to a
`(Playwright …)` string on missing library or error. -/
def _scrape_with_playwright (ext : ToolExt) (u : Value) : String :=
  match u with
  | .str us =>
    match ext.playwright us with
    | .content html => _extract_text_bs4 ext html
    | .importErr => "(Playwright not installed)"
    | .err e => "(Playwright error: " ++ e ++ ")"
  | _ => "(Playwright error: url must be a string)"

/-- The body of the fetch loop of the enhanced `run`. -/
def scrapeOne (ext : ToolExt) (mode : String) (u : Value) : List String × List Value :=
  let text := if mode == "playwright" then _scrape_with_playwright ext u
    else _scrape_with_requests ext u
  (["Fetching " ++ pyStr u ++ " (mode: " ++ mode ++ ")",
    "Scraped " ++ pyStr u ++ " (" ++ toString text.length ++ " chars)"],
   [Value.dict [("url", u), ("text", .str text)]])

/-- `run` of `src/tools/scraper_tool_enhanced.py`. -/
def run (ext : ToolExt) (args : PyDict) (ctx : Ctx) : PyResult × Ctx :=
  ((do
    let mode := (ext.env "SCRAPER_MODE").getD "requests"
    let urls ←
      if (List.lookup "url" args).isSome && truthy (pyGet args "url") then
        Except.ok (some [pyGet args "url"])
      else
        match findResults ctx with
        | none => Except.ok none
        | some results => do
          let top_k ← pyToInt (pyGetD args "top_k" (.int 3))
          let rs ← sliceResults results top_k
          let us ← rs.mapM (fun r => match r with
            | .dict d => Except.ok (pyGet d "url")
            | _ => Except.error "AttributeError: object has no attribute get")
          Except.ok (some (us.filter (fun u => truthy u)))
    match urls with
    | none => Except.ok (["No URLs or search results available to scrape"],
        Value.dict [("pages", .list [])])
    | some us =>
      let scraped := us.map (scrapeOne ext mode)
      Except.ok (scraped.foldr (fun p acc => p.1 ++ acc) [],
        Value.dict [("pages", .list (scraped.foldr (fun p acc => p.2 ++ acc) []))])), ctx)

end ScraperToolEnhanced

namespace SummarizerTool

/-- `_simple_extractive`: naive sentence split, first `max_sentences`
sentences as dashes. -/
def _simple_extractive (text : String) (max_sentences : Int) : String :=
  let sentences := splitSentGo (pyStrip text).data []
  "\n- " ++ String.intercalate "\n- " (pySliceTo sentences max_sentences)

/-- The context scan of `run`: texts from `pages` entries, then `snippet`
fields of `results` entries, of one context value. -/
def collectFromVal (v : Value) : Except String (List Value) :=
  match v with
  | .dict d => do
    let t1 ← if truthy (pyGet d "pages") then do
        let ps ← pyIter (pyGetD d "pages" (.list []))
        ps.mapM (fun p => match p with
          | .dict pd => Except.ok (pyGetD pd "text" (.str ""))
          | _ => Except.error "AttributeError: object has no attribute get")
      else pure []
    let t2 ← if truthy (pyGet d "results") then do
        let rs ← pyIter (pyGet d "results")
        rs.mapM (fun r => match r with
          | .dict rd => Except.ok (pyGetD rd "snippet" (.str ""))
          | _ => Except.error "AttributeError: object has no attribute get")
      else pure []
    pure (t1 ++ t2)
  | _ => pure []

/-- `run` of `src/tools/summarizer_tool.py`. -/
def run (ext : ToolExt) (args : PyDict) (ctx : Ctx) : PyResult × Ctx :=
  ((do
    let _mode := pyGetD args "mode" (.str "bullet")
    let max_sentences ← pyToInt (pyGetD args "max_sentences" (.int 5))
    let textss ← (ctx.map Prod.snd).mapM collectFromVal
    let texts := textss.foldr (fun a b => a ++ b) []
    let strs ← (texts.filter (fun t => truthy t)).mapM expectStr
    let joined := String.intercalate "\n\n" strs
    if joined == "" then
      Except.ok (["No content found to summarise"], Value.dict [("summary", .str "(no content)")])
    else if ext.openaiMod && envTruthy (ext.env "OPENAI_API_KEY") then
      match ext.aiSummarize ("Summarize the following text in " ++ toString max_sentences ++
          " bullets:\n\n" ++ pyTakeStr joined 3000) with
      | .ok summary =>
        Except.ok (["Generated summary using OpenAI"], .dict [("summary", .str summary)])
      | .error e =>
        Except.ok (["OpenAI summarization failed: " ++ e,
          "Generated extractive summary (fallback)"],
          .dict [("summary", .str (_simple_extractive joined max_sentences))])
    else
      Except.ok (["Generated extractive summary (fallback)"],
        .dict [("summary", .str (_simple_extractive joined max_sentences))])), ctx)

end SummarizerTool

namespace EmailTool

/-- The context scan for a truthy `summary` value. -/
def findSummary : List (String × Value) → Option Value
  | [] => none
  | (_, v) :: rest =>
    match v with
    | .dict d => if truthy (pyGet d "summary") then some (pyGet d "summary")
        else findSummary rest
    | _ => findSummary rest

/-- The `content_parts` contribution of one context value: formatted search
results, else formatted scraped pages. -/
def partsFromVal (v : Value) : Except String (List String) :=
  match v with
  | .dict d =>
    if truthy (pyGet d "results") then do
      let rs ← sliceResults (pyGetD d "results" (.list [])) 10
      let pieces ← (List.zip (List.range' 1 rs.length) rs).mapM (fun ir =>
        match ir.2 with
        | .dict rd =>
          let title := pyGetD rd "title" (.str "")
          let snippet := pyGetD rd "snippet" (.str "")
          let link := pyOr (pyGet rd "url") (pyGetD rd "link" (.str ""))
          Except.ok (["\n" ++ toString ir.1 ++ ". " ++ pyStr title, "   " ++ pyStr snippet] ++
            (if truthy link then ["   " ++ pyStr link ++ "\n"] else []))
        | _ => Except.error "AttributeError: object has no attribute get")
      pure (("Search Results:\n" ++ String.mk (List.replicate 50 '=')) ::
        pieces.foldr (fun a b => a ++ b) [])
    else if truthy (pyGet d "pages") then do
      let ps ← sliceResults (pyGetD d "pages" (.list [])) 3
      let pieces ← ps.mapM (fun p =>
        match p with
        | .dict pd => do
          let url := pyGetD pd "url" (.str "")
          let text ← match pyGetD pd "text" (.str "") with
            | .str t => Except.ok (pyTakeStr t 500)
            | .list xs => Except.ok (pyStr (.list (xs.take 500)))
            | _ => Except.error "TypeError: object is not subscriptable"
          Except.ok ["\n🔗 " ++ pyStr url ++ "\n" ++ text ++ "...\n"]
        | _ => Except.error "AttributeError: object has no attribute get")
      pure (("Scraped Content:\n" ++ String.mk (List.replicate 50 '=')) ::
        pieces.foldr (fun a b => a ++ b) [])
    else pure []
  | _ => pure []

/-- `run` of `src/tools/email_tool.py`: body assembly from args or context,
then either the demo fallback (SMTP unconfigured) or a real send via the
SMTP oracle. -/
def run (ext : ToolExt) (args : PyDict) (ctx : Ctx) : PyResult × Ctx :=
  ((do
    let toV := pyOr (pyGet args "to") (.str "")
    let subject := pyOr (pyGet args "subject") (.str "Agent result")
    let body0 := pyGet args "body"
    let body1 := if truthy body0 then body0 else (findSummary ctx).getD body0
    let body2 ← if truthy body1 then pure body1 else do
      let partss ← (ctx.map Prod.snd).mapM partsFromVal
      let parts := partss.foldr (fun a b => a ++ b) []
      if parts.isEmpty then pure body1
      else pure (Value.str (String.intercalate "\n" parts))
    let body3 := if truthy body2 then body2 else Value.str "(no content available)"
    let smtp_host := ext.env "SMTP_HOST"
    let smtp_port ← if envTruthy (ext.env "SMTP_PORT") then do
        let p ← pyToInt (.str ((ext.env "SMTP_PORT").getD ""))
        pure (some p)
      else pure (none : Option Int)
    let smtp_user := ext.env "SMTP_USER"
    let smtp_pass := ext.env "SMTP_PASSWORD"
    let default_from := match ext.env "DEFAULT_FROM" with
      | some s => some s
      | none => smtp_user
    if !envTruthy smtp_host || !envTruthy smtp_user || !envTruthy smtp_pass then
      Except.ok (["SMTP not configured - would send email to " ++ pyStr toV ++
        " with subject '" ++ pyStr subject ++ "'", "Email body:\n" ++ pyStr body3],
        .dict [("email_sent", .bool false), ("to", toV), ("subject", subject)])
    else do
      let bodyS ← expectStr body3
      let html_body := String.mk (replChar '\n' "<br>\n".data (linkifyGo bodyS.data))
      let html_content := "\n    <html>\n    <body style=\"font-family: Arial, " ++
        "sans-serif; line-height: 1.6; color: #333;\">\n        " ++
        "<div style=\"max-width: 800px; margin: 0 auto; padding: 20px;\">\n            " ++
        html_body ++ "\n        </div>\n    </body>\n    </html>\n    "
      match ext.smtpSend (smtp_host.getD "") smtp_port (smtp_user.getD "")
          (smtp_pass.getD "") default_from (pyStr toV) (pyStr subject) bodyS html_content with
      | .ok _ =>
        Except.ok (["Email sent to " ++ pyStr toV],
          .dict [("email_sent", .bool true), ("to", toV), ("subject", subject)])
      | .error e =>
        Except.ok (["Failed to send email: " ++ e],
          .dict [("email_sent", .bool false), ("error", .str e)])), ctx)

end EmailTool

namespace ResumeParserTool

/-- Model of `os.path.basename` (POSIX separators). -/
def basenameOf (p : String) : String :=
  String.mk (((splitChar '/' p.data).getLastD []))

/-- Model of `os.path.splitext(path)[1]`: the dotted suffix of the last
component, ignoring leading dots. -/
def extOf (p : String) : String :=
  let base := (basenameOf p).data
  let rest := base.drop (base.takeWhile (fun c => c == '.')).length
  let parts := splitChar '.' rest
  if parts.length ≥ 2 then "." ++ String.mk (parts.getLastD []) else ""

/-- `_extract_from_pdf_with_ocr`: OCR fallback via the oracle, with the
source's degraded error strings. -/
def _extract_from_pdf_with_ocr (ext : ToolExt) (fp : String) : String :=
  match ext.ocr fp with
  | .importErr =>
    "Error: OCR libraries not installed. Please run: pip install pytesseract pdf2image pillow"
  | .err e => "Error during OCR: " ++ e ++ ". Try converting to DOCX or TXT format."
  | .pages ts =>
    let text := pyStrip (ts.foldl (fun acc t => acc ++ t ++ "\n") "")
    if text == "" || text.length < 10 then
      "Error: Could not extract text from PDF even with OCR. Please try DOCX or TXT format."
    else text

/-- `_extract_from_pdf`: concatenate nonempty page texts; short output falls
back to OCR; a reader failure degrades to an `Error reading PDF` string. -/
def _extract_from_pdf (ext : ToolExt) (fp : String) : String :=
  match ext.pdfPages fp with
  | .error e => "Error reading PDF: " ++ e
  | .ok pages =>
    let text := pages.foldl (fun acc pt => match pt with
      | some t => if t != "" then acc ++ t ++ "\n" else acc
      | none => acc) ""
    let text := pyStrip text
    if text == "" || text.length < 10 then _extract_from_pdf_with_ocr ext fp else text

/-- `_extract_from_docx`. -/
def _extract_from_docx (ext : ToolExt) (fp : String) : String :=
  match ext.docxParas fp with
  | .error e => "Error reading DOCX: " ++ e
  | .ok ps => pyStrip (String.intercalate "\n" ps)

/-- `_extract_from_txt`. -/
def _extract_from_txt (ext : ToolExt) (fp : String) : String :=
  match ext.txtRead fp with
  | .error e => "Error reading TXT: " ++ e
  | .ok s => pyStrip s

/-- `run` of `src/tools/resume_parser_tool.py`. -/
def run (ext : ToolExt) (args : PyDict) (ctx : Ctx) : PyResult × Ctx :=
  ((do
    let fpV := pyGetD args "file_path" (.str "")
    if !truthy fpV then
      Except.ok (["Error: Resume file not found"],
        Value.dict [("resume_text", .str ""), ("error", .str "File not found")])
    else do
      let fp ← match fpV with
        | .str s => Except.ok s
        | _ => Except.error "TypeError: path should be a string"
      if !ext.pathExists fp then
        Except.ok (["Error: Resume file not found"],
          Value.dict [("resume_text", .str ""), ("error", .str "File not found")])
      else
        let file_name := basenameOf fp
        let file_ext := lowerStr (extOf fp)
        let plog := "Parsing resume: " ++ file_name
        let textO : Option String :=
          if file_ext == ".pdf" then some (_extract_from_pdf ext fp)
          else if file_ext == ".docx" || file_ext == ".doc" then
            some (_extract_from_docx ext fp)
          else if file_ext == ".txt" then some (_extract_from_txt ext fp)
          else none
        match textO with
        | none =>
          Except.ok ([plog, "Unsupported file format: " ++ file_ext],
            Value.dict [("resume_text", .str ""),
              ("error", .str ("Unsupported format: " ++ file_ext))])
        | some text =>
          if leadsList "Error".data text.data then
            Except.ok ([plog, text],
              Value.dict [("resume_text", .str ""), ("error", .str text)])
          else
            let wc := wordCount text
            Except.ok ([plog, "Successfully parsed resume (" ++ toString wc ++ " words)"],
              Value.dict [("resume_text", .str text), ("file_name", .str file_name),
                ("word_count", .int wc)])), ctx)

end ResumeParserTool

namespace ResumeAnalyzerTool

/-- The context scan: the first dict value containing a `resume_text` key. -/
def findResumeText : List (String × Value) → Option Value
  | [] => none
  | (_, v) :: rest =>
    match v with
    | .dict d => if (List.lookup "resume_text" d).isSome then some (pyGet d "resume_text")
        else findResumeText rest
    | _ => findResumeText rest

/-- `_analyze_basic`: keyword extraction; returns its log lines and the
analysis dict. -/
def _analyze_basic (resume_text : String) : List String × Value :=
  let text_lower := lowerStr resume_text
  let tech_skills := ["python", "java", "javascript", "react", "node", "sql", "aws",
    "docker", "kubernetes", "machine learning", "ai", "data science",
    "frontend", "backend", "fullstack", "devops", "cloud"]
  let found_skills := tech_skills.filter (fun sk => pyIn sk text_lower)
  let education_keywords := ["bachelor", "master", "phd", "mba", "degree",
    "university", "college"]
  let has_education := education_keywords.any (fun k => pyIn k text_lower)
  let field :=
    if ["data", "analytics", "ml", "ai"].any (fun w => pyIn w text_lower) then
      "Data Science / AI"
    else if ["web", "frontend", "backend", "fullstack"].any (fun w => pyIn w text_lower) then
      "Web Development"
    else if ["devops", "cloud", "infrastructure"].any (fun w => pyIn w text_lower) then
      "DevOps / Cloud"
    else "Technology"
  (["Used basic keyword analysis (add OpenAI key for AI analysis)"],
    .dict [("name", .str "Candidate"),
      ("current_role", .str "Software Professional"),
      ("years_experience", .str "3-5"),
      ("skills", if found_skills.isEmpty then .list [.str "Programming", .str "Problem Solving"]
        else .list ((found_skills.take 10).map .str)),
      ("education", .list [if has_education then .str "Bachelor's Degree"
        else .str "Education details in resume"]),
      ("field_of_study", .str field),
      ("career_interests", .list [.str (field ++ " roles"), .str "Remote positions",
        .str "Growing companies"]),
      ("industries", .list [.str "Technology", .str "Software", .str "Startups"]),
      ("achievements", .list [.str "See resume for details"]),
      ("job_keywords", .list ((found_skills.take 5).map .str ++
        [.str (lowerStr field), .str "remote", .str "senior"]))])

/-- `_analyze_with_ai`: OpenAI analysis via the oracle; on failure a log line
and the basic analysis; a non-string resume text ends in a raise either way. -/
def _analyze_with_ai (ext : ToolExt) (resume_textV : Value) :
    Except String (List String × Value) :=
  match resume_textV with
  | .str s =>
    match ext.aiAnalyze (pyTakeStr s 4000) with
    | .ok v => .ok (["Used AI analysis (OpenAI)"], v)
    | .error e =>
      let ba := _analyze_basic s
      .ok (("AI analysis failed: " ++ e ++ ", using basic extraction") :: ba.1, ba.2)
  | _ => .error "TypeError: resume text is not a string"

/-- `run` of `src/tools/resume_analyzer_tool.py`. -/
def run (ext : ToolExt) (args : PyDict) (ctx : Ctx) : PyResult × Ctx :=
  ((do
    let _ := args
    let rtV := (findResumeText ctx).getD .null
    if !truthy rtV then
      Except.ok (["Error: No resume text found in context"],
        Value.dict [("error", .str "No resume text available")])
    else do
      let la ← if envTruthy (ext.env "OPENAI_API_KEY") then _analyze_with_ai ext rtV
        else match rtV with
          | .str s => Except.ok (_analyze_basic s)
          | _ => Except.error "AttributeError: object has no attribute lower"
      let skLen ← match la.2 with
        | .dict ad => pyLen (pyGetD ad "skills" (.list []))
        | _ => Except.error "AttributeError: object has no attribute get"
      Except.ok ("Analyzing resume content..." :: la.1 ++
        ["Analysis complete - Found " ++ toString skLen ++ " skills"],
        Value.dict [("analysis", la.2)])), ctx)

end ResumeAnalyzerTool

namespace SearchToolEnhanced

/-- Build the `{title, url, snippet}` records of `_serpapi_search` /
`_google_custom_search`; a non-dict item means the parse raised, which the
source converts to `None`. -/
def buildResults (items : List Value) (linkKey : String) : Option (List Value) :=
  items.mapM (fun item => match item with
    | .dict d => some (Value.dict [("title", pyGetD d "title" (.str "")),
        ("url", pyGetD d linkKey (.str "")),
        ("snippet", pyGetD d "snippet" (.str ""))])
    | _ => none)

/-- `_serpapi_search`: `None` without an API key, on a non-200 status or on
any parse failure; else the first `limit` organic results. -/
def _serpapi_search (ext : ToolExt) (q : Value) (limit : Int) : Option (List Value) :=
  if !envTruthy (ext.env "SERPAPI_KEY") then none
  else match ext.serp q limit with
    | .error _ => none
    | .ok (status, data) =>
      if status == 200 then
        match data with
        | .dict d =>
          match pyGetD d "organic_results" (.list []) with
          | .list items => buildResults (pySliceTo items limit) "link"
          | _ => none
        | _ => none
      else none

/-- `_google_custom_search`: like `_serpapi_search` with both Google keys and
the `items` field. -/
def _google_custom_search (ext : ToolExt) (q : Value) (limit : Int) : Option (List Value) :=
  if !envTruthy (ext.env "GOOGLE_SEARCH_API_KEY") ||
      !envTruthy (ext.env "GOOGLE_SEARCH_ENGINE_ID") then none
  else match ext.google q limit with
    | .error _ => none
    | .ok (status, data) =>
      if status == 200 then
        match data with
        | .dict d =>
          match pyGetD d "items" (.list []) with
          | .list items => buildResults (pySliceTo items limit) "link"
          | _ => none
        | _ => none
      else none

/-- `_fake_search` of the enhanced search tool (same shape as the basic
tool's fake results). -/
def fakeResult (queryV : Value) (i : Int) : Except String Value := do
  let qs ← match queryV with
    | .str s => Except.ok (String.mk (replChar ' ' "-".data s.data))
    | _ => Except.error "AttributeError: object has no attribute replace"
  Except.ok (.dict
    [("title", .str ("Result " ++ toString i ++ " for " ++ pyStr queryV)),
     ("url", .str ("https://example.com/" ++ qs ++ "/" ++ toString i)),
     ("snippet", .str ("This is a short snippet describing " ++ pyStr queryV ++
       " result #" ++ toString i ++ "."))])

/-- `run` of `src/tools/search_tool_enhanced.py`: SerpAPI, then Google Custom
Search, then fake results; an empty result list is falsy and falls through. -/
def run (ext : ToolExt) (args : PyDict) (ctx : Ctx) : PyResult × Ctx :=
  ((do
    let q := pyGetD args "query" (.str "")
    let limit ← pyToInt (pyGetD args "limit" (.int 5))
    let serpRs := match _serpapi_search ext q limit with
      | some rs => if rs.isEmpty then none else some rs
      | none => none
    match serpRs with
    | some rs =>
      Except.ok (["Search: found " ++ toString rs.length ++
        " results using SerpAPI for '" ++ pyStr q ++ "'"],
        Value.dict [("results", .list rs)])
    | none =>
      let gRs := match _google_custom_search ext q limit with
        | some rs => if rs.isEmpty then none else some rs
        | none => none
      match gRs with
      | some rs =>
        Except.ok (["Search: found " ++ toString rs.length ++
          " results using Google Custom Search for '" ++ pyStr q ++ "'"],
          Value.dict [("results", .list rs)])
      | none => do
        let rs ← (intRange 1 (limit + 1)).mapM (fakeResult q)
        Except.ok (["Search: found " ++ toString rs.length ++ " demo results for '" ++
          pyStr q ++ "' (no API key configured)"],
          Value.dict [("results", .list rs)])), ctx)

end SearchToolEnhanced

namespace JobMatcherTool

/-- The context scan: the first dict value containing an `analysis` key. -/
def findAnalysis : List (String × Value) → Option Value
  | [] => none
  | (_, v) :: rest =>
    match v with
    | .dict d => if (List.lookup "analysis" d).isSome then some (pyGet d "analysis")
        else findAnalysis rest
    | _ => findAnalysis rest

/-- Everything `run` does before calling the enhanced search tool: either the
`No resume analysis` early return (`Sum.inl`), or the pre-search log lines,
the search query, the raw `skills` and `field_of_study` values and the search
limit (`Sum.inr`). -/
def stagePrep (args : PyDict) (ctx : Ctx) :
    Except String (Sum (List String × Value) (List String × String × Value × Value × Int)) := do
  let analysisV := (findAnalysis ctx).getD .null
  if !truthy analysisV then
    pure (Sum.inl (["Error: No resume analysis found in context"],
      Value.dict [("error", .str "No analysis available")]))
  else do
    let ad ← match analysisV with
      | .dict ad => pure ad
      | _ => Except.error "AttributeError: object has no attribute get"
    let field := pyGetD ad "field_of_study" (.str "")
    let skills := pyGetD ad "skills" (.list [])
    let _interests := pyGetD ad "career_interests" (.list [])
    let keywords := pyGetD ad "job_keywords" (.list [])
    let sk3 ← sliceVal skills 3
    let sk3l ← pyIter sk3
    let kw2 ← sliceVal keywords 2
    let kw2l ← pyIter kw2
    let search_terms := (if truthy field then [field] else []) ++ sk3l ++ kw2l
    let termStrs ← (search_terms.take 5).mapM expectStr
    let location := pyGetD args "location" (.str "remote")
    let search_query := String.intercalate " " termStrs ++ " jobs " ++ pyStr location
    let limit ← pyToInt (pyGetD args "limit" (.int 10))
    pure (Sum.inr (["Searching for: " ++ search_query], search_query, skills, field, limit))

/-- Everything `run` does after the enhanced search returns: filter and
enhance the results into `job_matches` and build the output dict. -/
def stagePost (search_query : String) (skills field soutput : Value) :
    Except String (List String × Value) := do
  let job_results ← match soutput with
    | .dict sd => pure (pyGetD sd "results" (.list []))
    | _ => Except.error "AttributeError: object has no attribute get"
  let jrs ← pyIter job_results
  let skillList ← pyIter skills
  let job_matches ← jrs.mapM (fun result => do
    let rd ← match result with
      | .dict rd => pure rd
      | _ => Except.error "AttributeError: object has no attribute get"
    let title_lower ← match pyGetD rd "title" (.str "") with
      | .str t => pure (lowerStr t)
      | _ => Except.error "AttributeError: object has no attribute lower"
    let snippet_lower ← match pyGetD rd "snippet" (.str "") with
      | .str t => pure (lowerStr t)
      | _ => Except.error "AttributeError: object has no attribute lower"
    let is_job := ["job", "career", "hiring", "position", "opening"].any
      (fun kw => pyIn kw title_lower || pyIn kw snippet_lower)
    let ms ← skillList.mapM (fun sk => match sk with
      | .str s => Except.ok (if pyIn (lowerStr s) snippet_lower
          then some (Value.str s) else none)
      | _ => Except.error "AttributeError: object has no attribute lower")
    pure (Value.dict [("title", pyGet rd "title"), ("url", pyGet rd "url"),
      ("snippet", pyGet rd "snippet"),
      ("relevance", .str (if is_job then "high" else "medium")),
      ("matched_skills", .list (ms.filterMap id))]))
  let sk5 ← sliceVal skills 5
  pure (["Found " ++ toString job_matches.length ++ " potential job matches"],
    Value.dict [("job_matches", .list job_matches), ("search_query", .str search_query),
      ("matched_field", field), ("matched_skills", sk5)])

/-- `run` of `src/tools/job_matcher_tool.py`: builds a search query from the
resume analysis found in context, delegates to the enhanced search tool
(threading the context through that call), then post-processes. -/
def run (ext : ToolExt) (args : PyDict) (ctx : Ctx) : PyResult × Ctx :=
  match stagePrep args ctx with
  | .error e => (.error e, ctx)
  | .ok (Sum.inl early) => (.ok early, ctx)
  | .ok (Sum.inr (logs1, search_query, skills, field, limit)) =>
    let inner := SearchToolEnhanced.run ext
      [("query", .str search_query), ("limit", .int limit)] ctx
    match inner.1 with
    | .error e => (.error e, inner.2)
    | .ok (slogs, soutput) =>
      match stagePost search_query skills field soutput with
      | .error e => (.error e, inner.2)
      | .ok (logs2, out) => (.ok (logs1 ++ slogs ++ logs2, out), inner.2)

end JobMatcherTool

/-- Is the parsed plan's `steps` entry missing or not a list? This is the
condition under which `LLMPlanner._plan_with_llm` raises
`ValueError("Invalid plan structure")`. -/
def stepsMalformed (pv : Value) : Bool :=
  match pv with
  | .dict kvs =>
    match List.lookup "steps" kvs with
    | some (.list _) => false
    | _ => true
  | _ => true

/-- A concrete adapter behaviour that raises on the first invocation of a run
and succeeds from then on. -/
def invokeW : Controller.Invoke := fun n _ _ _ =>
  if n == 0 then .error "boom" else .ok (["worked"], some (.str "v"))

/-- A concrete adapter behaviour that always raises. -/
def failInvoke : Controller.Invoke := fun _ _ _ _ => .error "down"

/-- A concrete adapter behaviour that raises exactly for the `scrape` tool. -/
def invokeC3 : Controller.Invoke := fun _ tool _ _ =>
  if tool == "scrape" then .error "down" else .ok ([], some (.str "out"))

theorem ctxSet_lookup_ne {c : List (String × Value)} {k k' : String} (v : Value)
    (h : k' ≠ k) : List.lookup k' (ctxSet c k v) = List.lookup k' c := by
  have hb : (k' == k) = false := beq_eq_false_iff_ne.mpr h
  induction c with
  | nil => simp [ctxSet, List.lookup, hb]
  | cons a t ih =>
    obtain ⟨ka, va⟩ := a
    by_cases hk : ka = k
    · subst hk
      simp [ctxSet, List.lookup, hb]
    · have hka : (ka == k) = false := beq_eq_false_iff_ne.mpr hk
      simp only [ctxSet, hka, Bool.false_eq_true, if_false]
      cases hbk : (k' == ka) <;> simp [List.lookup, hbk, ih]

theorem mem_keys_ctxSet {c : List (String × Value)} {k a : String} (v : Value) :
    a ∈ (ctxSet c k v).map Prod.fst ↔ a ∈ c.map Prod.fst ∨ a = k := by
  induction c with
  | nil => simp [ctxSet]
  | cons p t ih =>
    obtain ⟨ka, va⟩ := p
    by_cases hk : ka = k
    · subst hk
      simp [ctxSet]
      tauto
    · have hka : (ka == k) = false := beq_eq_false_iff_ne.mpr hk
      simp only [ctxSet, hka, Bool.false_eq_true, if_false, List.map, List.mem_cons, ih]
      tauto

theorem stepKey_ne_plan_input (s : Step) : Controller.stepKey s ≠ "plan_input" := by
  intro h
  have e1 : ("step_" : String).length = 5 := by decide
  have e2 : ("_output" : String).length = 7 := by decide
  have e3 : ("plan_input" : String).length = 10 := by decide
  have h1 : (Controller.stepKey s).length = 12 + (toString s.id).length := by
    simp [Controller.stepKey, String.length_append, e1, e2]
    omega
  rw [h, e3] at h1
  omega

theorem execStep_ctx (invoke : Controller.Invoke) (n : Nat) (ctx : Ctx) (s : Step) :
    (Controller.execStep invoke n ctx s).2.1 =
      match Controller.stepOutcome invoke n ctx s with
      | some v => ctxSet ctx (Controller.stepKey s) v
      | none => ctx := by
  simp only [Controller.execStep, Controller.stepOutcome]
  cases h1 : invoke n s.tool s.args ctx with
  | ok p =>
    obtain ⟨l, o⟩ := p
    cases o <;> simp
  | error e =>
    cases h2 : invoke (n + 1) s.tool s.args ctx with
    | ok p =>
      obtain ⟨l, o⟩ := p
      cases o <;> simp
    | error e2 => simp

theorem execStep_n (invoke : Controller.Invoke) (n : Nat) (ctx : Ctx) (s : Step) :
    (Controller.execStep invoke n ctx s).2.2 =
      n + Controller.stepAttempts invoke n ctx s := by
  simp only [Controller.execStep, Controller.stepAttempts]
  cases h1 : invoke n s.tool s.args ctx with
  | ok p =>
    obtain ⟨l, o⟩ := p
    cases o <;> simp
  | error e =>
    cases h2 : invoke (n + 1) s.tool s.args ctx with
    | ok p =>
      obtain ⟨l, o⟩ := p
      cases o <;> simp
    | error e2 => simp

theorem execStep_log_head (invoke : Controller.Invoke) (n : Nat) (ctx : Ctx) (s : Step) :
    ∃ r, (Controller.execStep invoke n ctx s).1 = Controller.startLine s :: r := by
  simp only [Controller.execStep]
  cases h1 : invoke n s.tool s.args ctx with
  | ok p =>
    obtain ⟨l, o⟩ := p
    exact ⟨_, rfl⟩
  | error e =>
    cases h2 : invoke (n + 1) s.tool s.args ctx with
    | ok p =>
      obtain ⟨l, o⟩ := p
      exact ⟨_, rfl⟩
    | error e2 => exact ⟨_, rfl⟩

theorem execSteps_keys (invoke : Controller.Invoke) (l : List Step) : ∀ (n : Nat) (ctx : Ctx)
    (key : String), key ∈ ((Controller.execSteps invoke n ctx l).2.1).map Prod.fst ↔
      key ∈ ctx.map Prod.fst ∨ key ∈ Controller.writtenKeys invoke n ctx l := by
  induction l with
  | nil =>
    intro n ctx key
    simp [Controller.execSteps, Controller.writtenKeys]
  | cons s t ih =>
    intro n ctx key
    simp only [Controller.execSteps, Controller.writtenKeys]
    rw [execStep_ctx, execStep_n]
    cases ho : Controller.stepOutcome invoke n ctx s with
    | some v =>
      simp only [ho, ih, List.mem_cons, mem_keys_ctxSet]
      tauto
    | none => simp only [ho, ih]

theorem execSteps_planInput (invoke : Controller.Invoke) (l : List Step) : ∀ (n : Nat)
    (ctx : Ctx), List.lookup "plan_input" ((Controller.execSteps invoke n ctx l).2.1) =
      List.lookup "plan_input" ctx := by
  induction l with
  | nil =>
    intro n ctx
    simp [Controller.execSteps]
  | cons s t ih =>
    intro n ctx
    simp only [Controller.execSteps]
    rw [ih, execStep_ctx]
    cases ho : Controller.stepOutcome invoke n ctx s with
    | some v => exact ctxSet_lookup_ne v (Ne.symm (stepKey_ne_plan_input s))
    | none => rfl

theorem execSteps_append (invoke : Controller.Invoke) (l1 l2 : List Step) : ∀ (n : Nat)
    (ctx : Ctx), Controller.execSteps invoke n ctx (l1 ++ l2) =
      ((Controller.execSteps invoke n ctx l1).1 ++
        (Controller.execSteps invoke (Controller.execSteps invoke n ctx l1).2.2
          (Controller.execSteps invoke n ctx l1).2.1 l2).1,
       (Controller.execSteps invoke (Controller.execSteps invoke n ctx l1).2.2
         (Controller.execSteps invoke n ctx l1).2.1 l2).2) := by
  induction l1 with
  | nil =>
    intro n ctx
    simp [Controller.execSteps]
  | cons s t ih =>
    intro n ctx
    simp [Controller.execSteps, ih]

theorem mem_startLine_execSteps (invoke : Controller.Invoke) (l : List Step) : ∀ (n : Nat)
    (ctx : Ctx) (s : Step), s ∈ l →
      Controller.startLine s ∈ (Controller.execSteps invoke n ctx l).1 := by
  induction l with
  | nil =>
    intro n ctx s hs
    simp at hs
  | cons a t ih =>
    intro n ctx s hs
    simp only [Controller.execSteps]
    rcases List.mem_cons.mp hs with rfl | hs'
    · obtain ⟨r, hr⟩ := execStep_log_head invoke n ctx s
      exact List.mem_append_left _ (hr ▸ List.mem_cons_self _ _)
    · exact List.mem_append_right _ (ih _ _ _ hs')

theorem searchEnhanced_frame (ext : ToolExt) (args : PyDict) (ctx : Ctx) :
    (SearchToolEnhanced.run ext args ctx).2 = ctx := rfl

theorem attempt_error_of_malformed (pv : Value) (command : String)
    (target_email : Option String) (h : stepsMalformed pv = true) :
    ∃ e, LLMPlanner.attempt pv command target_email = .error e := by
  cases pv with
  | dict kvs0 =>
    simp only [stepsMalformed] at h
    simp only [LLMPlanner.attempt]
    have hs : List.lookup "steps"
        (if (List.lookup "input" kvs0).isNone then ctxSet kvs0 "input" (.str command)
         else kvs0) = List.lookup "steps" kvs0 := by
      split
      · exact ctxSet_lookup_ne _ (by decide)
      · rfl
    rw [hs]
    cases hl : List.lookup "steps" kvs0 with
    | none => exact ⟨_, rfl⟩
    | some v =>
      cases v with
      | list xs => simp [hl] at h
      | null => exact ⟨_, rfl⟩
      | bool b => exact ⟨_, rfl⟩
      | int n => exact ⟨_, rfl⟩
      | str s => exact ⟨_, rfl⟩
      | dict d => exact ⟨_, rfl⟩
  | null => exact ⟨_, rfl⟩
  | bool b => exact ⟨_, rfl⟩
  | int n => exact ⟨_, rfl⟩
  | str s => exact ⟨_, rfl⟩
  | list xs => exact ⟨_, rfl⟩

/-- Claim C1: for a step the controller executes (the loop body of
`Controller.execute_plan`), whose invocation raises on the first attempt: if
the retry (made with the same args and the same context as before the first
attempt) succeeds, the step's log is exactly `Starting…`, `Error in step…`,
`Retrying…`, the retry's tool logs, `Finished retry…`, and a non-null retry
output is written under `step_<id>_output`; if the retry also raises, the
step's log is exactly the four lines `Starting…`, one `Error in step…`, one
`Retrying…`, one `Failed retry…`, and the context is left unchanged (no
`step_<id>_output` key is written). -/
theorem controller_retry_once_per_step (invoke : Controller.Invoke) (n : Nat) (ctx : Ctx)
    (s : Step) (e : String) (h1 : invoke n s.tool s.args ctx = .error e) :
    (∀ tlogs output, invoke (n + 1) s.tool s.args ctx = .ok (tlogs, output) →
      Controller.execStep invoke n ctx s =
        (Controller.startLine s ::
          ("Error in step " ++ toString s.id ++ " (" ++ s.tool ++ "): " ++ e) ::
          ("Retrying step " ++ toString s.id ++ " -> " ++ s.tool) ::
          tlogs ++ ["Finished retry step " ++ toString s.id ++ " -> " ++ s.tool],
         (match output with
          | some v => ctxSet ctx (Controller.stepKey s) v
          | none => ctx), n + 2)) ∧
    (∀ e2, invoke (n + 1) s.tool s.args ctx = .error e2 →
      Controller.execStep invoke n ctx s =
        ([Controller.startLine s,
          "Error in step " ++ toString s.id ++ " (" ++ s.tool ++ "): " ++ e,
          "Retrying step " ++ toString s.id ++ " -> " ++ s.tool,
          "Failed retry for step " ++ toString s.id ++ ": " ++ e2], ctx, n + 2)) := by
  constructor
  · intro tlogs output h2
    simp only [Controller.execStep, h1, h2]
  · intro e2 h2
    simp only [Controller.execStep, h1, h2]

/-- Witness for C1: an adapter that raises once then succeeds produces the
claimed log and writes the retry output to the context. -/
theorem controller_retry_once_per_step_witness :
    Controller.execStep invokeW 0 [] ⟨7, "search", []⟩ =
      (["Starting step 7 -> search",
        "Error in step 7 (search): boom",
        "Retrying step 7 -> search",
        "worked",
        "Finished retry step 7 -> search"],
       [("step_7_output", Value.str "v")], 2) := by
  exact (controller_retry_once_per_step invokeW 0 [] ⟨7, "search", []⟩ "boom" rfl).1
    ["worked"] (some (.str "v")) rfl

/-- Claim C2: `Controller.execute_plan` never aborts on a step-level failure:
whatever the adapters do (including every invocation raising), every step of
the plan is still executed and contributes its `Starting step <id> -> <tool>`
log line. -/
theorem controller_step_failure_nonfatal (invoke : Controller.Invoke) (plan : Plan)
    (s : Step) (hs : s ∈ plan.steps.getD []) :
    Controller.startLine s ∈ Controller.execute_plan invoke plan :=
  mem_startLine_execSteps invoke _ 0 (Controller.initCtx plan) s hs

/-- Witness for C2: with every invocation raising (so every step fails twice),
the final step of a three-step plan is still logged. -/
theorem controller_step_failure_nonfatal_witness :
    "Starting step 3 -> logger" ∈ Controller.execute_plan failInvoke
      { input := some (.str "x"),
        steps := some [⟨1, "search", []⟩, ⟨2, "scrape", []⟩, ⟨3, "logger", []⟩] } :=
  controller_step_failure_nonfatal failInvoke
    { input := some (.str "x"),
      steps := some [⟨1, "search", []⟩, ⟨2, "scrape", []⟩, ⟨3, "logger", []⟩] }
    ⟨3, "logger", []⟩ (by simp)

/-- Claim C3: the context passed to the `k`-th step of a plan binds
`plan_input` to the plan's input and contains exactly that key plus
`step_<i>_output` for the earlier steps whose (possibly retried) invocation
returned a non-null output; the third conjunct shows the run decomposes so
that this context is precisely the one the remaining steps (starting with
step `k`) are executed against. -/
theorem controller_context_visibility (invoke : Controller.Invoke) (plan : Plan) (k : Nat)
    (_hk : k < (plan.steps.getD []).length) :
    List.lookup "plan_input" (Controller.ctxBefore invoke plan k) =
      some (plan.input.getD Value.null) ∧
    (∀ key, key ∈ (Controller.ctxBefore invoke plan k).map Prod.fst ↔
      key = "plan_input" ∨
        key ∈ Controller.writtenKeys invoke 0 (Controller.initCtx plan)
          ((plan.steps.getD []).take k)) ∧
    Controller.execute_plan invoke plan =
      (Controller.execSteps invoke 0 (Controller.initCtx plan)
        ((plan.steps.getD []).take k)).1 ++
      (Controller.execSteps invoke
        (Controller.execSteps invoke 0 (Controller.initCtx plan)
          ((plan.steps.getD []).take k)).2.2
        (Controller.ctxBefore invoke plan k) ((plan.steps.getD []).drop k)).1 := by
  refine ⟨?_, ?_, ?_⟩
  · rw [Controller.ctxBefore, execSteps_planInput]
    simp [Controller.initCtx, List.lookup]
  · intro key
    rw [Controller.ctxBefore, execSteps_keys]
    simp [Controller.initCtx]
  · have h := execSteps_append invoke ((plan.steps.getD []).take k)
      ((plan.steps.getD []).drop k) 0 (Controller.initCtx plan)
    rw [List.take_append_drop] at h
    rw [Controller.execute_plan, h]
    rfl

/-- Witness for C3: for a two-step plan whose first step succeeds, the context
seen by step 2 keeps `plan_input` and gains exactly `step_1_output`. -/
theorem controller_context_visibility_witness :
    List.lookup "plan_input" (Controller.ctxBefore invokeC3
      { input := some (.str "in"),
        steps := some [⟨1, "search", []⟩, ⟨2, "scrape", []⟩] } 1) =
      some (.str "in") ∧
    ("step_1_output" ∈ (Controller.ctxBefore invokeC3
        { input := some (.str "in"),
          steps := some [⟨1, "search", []⟩, ⟨2, "scrape", []⟩] } 1).map Prod.fst ↔
      "step_1_output" = "plan_input" ∨
        "step_1_output" ∈ Controller.writtenKeys invokeC3 0
          (Controller.initCtx
            { input := some (.str "in"),
              steps := some [⟨1, "search", []⟩, ⟨2, "scrape", []⟩] })
          (([⟨1, "search", []⟩, ⟨2, "scrape", []⟩] : List Step).take 1)) := by
  refine ⟨?_, ?_⟩
  · exact (controller_context_visibility invokeC3 _ 1 (by decide)).1
  · exact (controller_context_visibility invokeC3 _ 1 (by decide)).2.1 "step_1_output"

/-- Claim C4: for every command and optional target address the rule-based
planner emits tool names forming a subsequence of
`[search, scrape, summarize, email, logger]`, with `logger` always present and
last, and step ids `1, 2, …` assigned in append order. -/
theorem planner_step_order_invariant (command : String) (target_email : Option String) :
    List.Sublist (((Planner.plan command target_email).steps.getD []).map Step.tool)
      ["search", "scrape", "summarize", "email", "logger"] ∧
    (((Planner.plan command target_email).steps.getD []).map Step.tool).getLast? =
      some "logger" ∧
    ((Planner.plan command target_email).steps.getD []).map Step.id =
      List.range' 1 ((Planner.plan command target_email).steps.getD []).length := by
  cases h1 : Planner.wantsSearch (lowerStr command) <;>
    cases h2 : Planner.wantsScrape (lowerStr command) <;>
      cases h3 : Planner.wantsSummarize (lowerStr command) <;>
        cases h4 : Planner.wantsEmail (lowerStr command) target_email <;>
          simp [Planner.plan, h1, h2, h3, h4, List.range']
  all_goals decide

/-- Claim C5: the command `Find me top 5 internships in Bangalore` with no
target address plans exactly search (query captured by `find me (.+)`,
limit 5), scrape (top_k 3) and logger — no summarize, no email. -/
theorem planner_scenario_find_internships :
    Planner.plan "Find me top 5 internships in Bangalore" none =
      { input := some (.str "Find me top 5 internships in Bangalore"),
        steps := some [
          ⟨1, "search", [("query", .str "top 5 internships in Bangalore"),
            ("limit", .int 5)]⟩,
          ⟨2, "scrape", [("top_k", .int 3)]⟩,
          ⟨3, "logger", [("message",
            .str "Completed task: Find me top 5 internships in Bangalore")]⟩] } ∧
    Planner._extract_search_query "Find me top 5 internships in Bangalore" =
      "top 5 internships in Bangalore" := by
  constructor <;> rfl

/-- Claim C6: the command `Summarize AI news and email me` with target
`a@b.com` plans scrape, then summarize (bullet mode, eight sentences), then
email to the target with the `Automation result for:` subject, then the final
logger step — the summarize step preceding the email step. -/
theorem planner_scenario_summarize_email :
    Planner.plan "Summarize AI news and email me" (some "a@b.com") =
      { input := some (.str "Summarize AI news and email me"),
        steps := some [
          ⟨1, "scrape", [("top_k", .int 3)]⟩,
          ⟨2, "summarize", [("mode", .str "bullet"), ("max_sentences", .int 8)]⟩,
          ⟨3, "email", [("to", .str "a@b.com"),
            ("subject", .str "Automation result for: Summarize AI news and email me")]⟩,
          ⟨4, "logger", [("message",
            .str "Completed task: Summarize AI news and email me")]⟩] } := by
  rfl

/-- Claim C7: whenever the generative backend call or JSON parsing fails
(`parsed` is an error) or the parsed plan's `steps` entry is missing or not a
list, `LLMPlanner.plan` returns exactly the rule-based planner's plan for the
same inputs, with no error or partial plan surfaced. -/
theorem llm_planner_silent_fallback (planner_mode api_key : Option String)
    (parsed : Except String Value) (command : String) (target_email : Option String)
    (h : (∃ e, parsed = .error e) ∨ ∃ pv, parsed = .ok pv ∧ stepsMalformed pv = true) :
    LLMPlanner.plan planner_mode api_key parsed command target_email =
      LLMPlanner.planToValue (Planner.plan command target_email) := by
  unfold LLMPlanner.plan
  split
  · rcases h with ⟨e, rfl⟩ | ⟨pv, rfl, hm⟩
    · rfl
    · show (match LLMPlanner.attempt pv command target_email with
        | .ok v => v
        | .error _ => LLMPlanner.planToValue (Planner.plan command target_email)) =
          LLMPlanner.planToValue (Planner.plan command target_email)
      obtain ⟨e, he⟩ := attempt_error_of_malformed pv command target_email hm
      rw [he]
  · rfl

/-- Witness for C7: in LLM mode with a key present, a parsed plan lacking a
`steps` list falls back to the rule-based plan. -/
theorem llm_planner_silent_fallback_witness :
    LLMPlanner.plan (some "llm") (some "key") (.ok (.dict [])) "hi" none =
      LLMPlanner.planToValue (Planner.plan "hi" none) :=
  llm_planner_silent_fallback (some "llm") (some "key") (.ok (.dict [])) "hi" none
    (Or.inr ⟨.dict [], rfl, by decide⟩)

/-- Claim C8: in both registry profiles, resolution succeeds for every tool
name the planner can emit, `summarize` and `summarise` resolve to the same
adapter, and any name absent from the registry fails with the
`Unknown tool: <name>` error. -/
theorem registry_resolution_contract (b : Bool) :
    (["search", "scrape", "summarize", "summarise", "email", "logger",
      "resume_parser", "resume_analyzer", "job_matcher"].all
        (fun name => (Controller.resolveTool b name).isOk)) = true ∧
    Controller.resolveTool b "summarize" = Controller.resolveTool b "summarise" ∧
    ∀ name, name ∉ (Controller.tool_map b).map Prod.fst →
      Controller.resolveTool b name = .error ("Unknown tool: " ++ name) := by
  have resolve_none : ∀ (bb : Bool) name, name ∉ (Controller.tool_map bb).map Prod.fst →
      Controller.resolveTool bb name = .error ("Unknown tool: " ++ name) := by
    intro bb name h
    cases bb <;>
      simp only [Controller.tool_map, Bool.false_eq_true, if_false, if_true, List.map,
        List.mem_cons, not_or] at h <;>
      obtain ⟨h1, h2, h3, h4, h5, h6, h7, h8, h9, -⟩ := h <;>
      simp [Controller.resolveTool, Controller.tool_map, List.lookup,
        beq_eq_false_iff_ne.mpr h1, beq_eq_false_iff_ne.mpr h2, beq_eq_false_iff_ne.mpr h3,
        beq_eq_false_iff_ne.mpr h4, beq_eq_false_iff_ne.mpr h5, beq_eq_false_iff_ne.mpr h6,
        beq_eq_false_iff_ne.mpr h7, beq_eq_false_iff_ne.mpr h8, beq_eq_false_iff_ne.mpr h9]
  cases b
  · exact ⟨by decide, rfl, resolve_none false⟩
  · exact ⟨by decide, rfl, resolve_none true⟩

/-- Witness for C8: a name absent from the enhanced profile fails with the
`Unknown tool` error. -/
theorem registry_resolution_contract_witness :
    ("nosuchtool" ∉ (Controller.tool_map true).map Prod.fst) ∧
    Controller.resolveTool true "nosuchtool" = .error "Unknown tool: nosuchtool" :=
  ⟨by decide, (registry_resolution_contract true).2.2 "nosuchtool" (by decide)⟩

/-- Claim C9: every tool adapter's `run` operation leaves the context it is
passed unchanged, for all arguments, contexts and external-oracle behaviours;
only the controller writes step outputs into the context. -/
theorem adapters_preserve_context (ext : ToolExt) (args : PyDict) (ctx : Ctx) :
    (SearchTool.run args ctx).2 = ctx ∧
    (LoggerTool.run args ctx).2 = ctx ∧
    (ScraperTool.run ext args ctx).2 = ctx ∧
    (ScraperToolEnhanced.run ext args ctx).2 = ctx ∧
    (SummarizerTool.run ext args ctx).2 = ctx ∧
    (EmailTool.run ext args ctx).2 = ctx ∧
    (ResumeParserTool.run ext args ctx).2 = ctx ∧
    (ResumeAnalyzerTool.run ext args ctx).2 = ctx ∧
    (SearchToolEnhanced.run ext args ctx).2 = ctx ∧
    (JobMatcherTool.run ext args ctx).2 = ctx := by
  refine ⟨rfl, rfl, rfl, rfl, rfl, rfl, rfl, rfl, rfl, ?_⟩
  unfold JobMatcherTool.run
  cases hp : JobMatcherTool.stagePrep args ctx with
  | error e => rfl
  | ok v =>
    cases v with
    | inl early => rfl
    | inr r =>
      obtain ⟨logs1, sq, sk, f, lim⟩ := r
      cases hr : (SearchToolEnhanced.run ext
          [("query", .str sq), ("limit", .int lim)] ctx).1 with
      | error e =>
        simp only [hr]
        exact searchEnhanced_frame ext [("query", Value.str sq), ("limit", Value.int lim)] ctx
      | ok p =>
        obtain ⟨slogs, soutput⟩ := p
        simp only [hr]
        cases hq : JobMatcherTool.stagePost sq sk f soutput with
        | error e =>
          simp only [hq]
          exact searchEnhanced_frame ext
            [("query", Value.str sq), ("limit", Value.int lim)] ctx
        | ok q =>
          simp only [hq]
          exact searchEnhanced_frame ext
            [("query", Value.str sq), ("limit", Value.int lim)] ctx

/-- Claim C10: a plan with an absent or empty `steps` entry executes to an
empty log regardless of the adapters (so no tool is invoked), and a plan that
is an empty mapping is accepted, its missing `input` seeding `plan_input`
with null. -/
theorem execute_plan_empty_plan (invoke : Controller.Invoke) (inp : Option Value) :
    Controller.execute_plan invoke { input := inp, steps := none } = [] ∧
    Controller.execute_plan invoke { input := inp, steps := some [] } = [] ∧
    Controller.initCtx { input := none, steps := none } = [("plan_input", Value.null)] :=
  ⟨rfl, rfl, rfl⟩
